import Mathlib

/-!
# Verification of the dashboard embedding experience

Shallow embedding of `src/experiences/dashboard-experience/dashboard-experience.ts`
(amazon-quicksight-embedding-sdk).  JavaScript values appearing in content
options are modelled by the inductive `JSVal`; the DOM iframe element is
modelled by its attribute map; callbacks (`onChange`) are modelled by
returning the list of change events emitted, in emission order; `throw` is
modelled by `Except.error` carrying the thrown message.
-/

set_option maxHeartbeats 1000000

namespace QuickSightEmbedding

/-- A JavaScript runtime value, as far as the embedded code inspects one:
`undefined`, `null`, booleans, numbers (the code only ever compares them with
`0` for truthiness, so `Int` suffices), strings, arrays and plain objects
(association lists of own properties, insertion-ordered, unique keys). -/
inductive JSVal where
  | undefined : JSVal
  | null : JSVal
  | bool : Bool → JSVal
  | num : Int → JSVal
  | str : String → JSVal
  | array : List JSVal → JSVal
  | obj : List (String × JSVal) → JSVal

/-- First-match lookup of an own property in an object's field list
(JS objects have unique keys, so first-match agrees with JS lookup). -/
def getField : List (String × JSVal) → String → JSVal
  | [], _ => .undefined
  | (k, v) :: rest, key => if k = key then v else getField rest key

/-- Optional-chained property access `v?.key`: `undefined`/`null` propagate
`undefined`; primitives have no own properties of the names this code reads
(`print`, `height`, `overlayContent`, ...), so they also yield `undefined`. -/
def JSVal.getProp : JSVal → String → JSVal
  | .obj fields, key => getField fields key
  | _, _ => .undefined

/-- JavaScript truthiness: `undefined`, `null`, `false`, `0`, `""` are falsy;
every other value, in particular every object and array, is truthy. -/
def JSVal.truthy : JSVal → Bool
  | .undefined => false
  | .null => false
  | .bool b => b
  | .num n => n != 0
  | .str s => s != ""
  | .array _ => true
  | .obj _ => true

/-- Strict equality with the literal `true` (JS `v === true`);
`v !== true` is its negation. -/
def JSVal.isTrue : JSVal → Bool
  | .bool true => true
  | _ => false

/-- JS `typeof v === 'boolean'`. -/
def JSVal.isBoolean : JSVal → Bool
  | .bool _ => true
  | _ => false

/-- JS `Array.isArray(v)`. -/
def JSVal.isArray : JSVal → Bool
  | .array _ => true
  | _ => false

/-- The elements of an array value (meaningful under `isArray`). -/
def JSVal.arrayItems : JSVal → List JSVal
  | .array l => l
  | _ => []

/-- The boolean carried by a value (meaningful under `isBoolean`). -/
def JSVal.asBool : JSVal → Bool
  | .bool b => b
  | _ => false

/-- String coercion of a value interpolated into a template literal,
for the values that can reach `` `${messageEvent?.message?.height}px` ``:
`undefined` prints as "undefined", `null` as "null". -/
def JSVal.interpolate : JSVal → String
  | .undefined => "undefined"
  | .null => "null"
  | .bool b => if b then "true" else "false"
  | .num n => toString n
  | .str s => s
  | .array _ => ""
  | .obj _ => "[object Object]"

/-- JS object-spread update `{...obj, [k]: v}`: an existing key keeps its
position and gets the new value, a fresh key is appended at the end. -/
def objSet (fields : List (String × JSVal)) (k : String) (v : JSVal) :
    List (String × JSVal) :=
  if fields.any (fun kv => kv.1 = k) then
    fields.map (fun kv => if kv.1 = k then (k, v) else kv)
  else
    fields ++ [(k, v)]

/-- The `ChangeEventName` values used by the dashboard experience
(`@common/events/types`). -/
inductive ChangeEventName where
  | FRAME_STARTED
  | INVALID_URL
  | UNRECOGNIZED_CONTENT_OPTIONS
deriving DecidableEq

/-- The `ChangeEventLevel` enum (`@common/events/types`). -/
inductive ChangeEventLevel where
  | INFO
  | WARN
  | ERROR
deriving DecidableEq

/-- The `data` payload attached to the change events this file models:
the offending url for INVALID_URL, the unrecognized option keys for
UNRECOGNIZED_CONTENT_OPTIONS, the internal experience for FRAME_STARTED. -/
inductive ChangeEventData where
  | urlData : String → ChangeEventData
  | unrecognizedKeys : List String → ChangeEventData
  | experienceData : ChangeEventData
deriving DecidableEq

/-- A change event delivered to the host's `onChange` callback. -/
structure ChangeEvent where
  eventName : ChangeEventName
  eventLevel : ChangeEventLevel
  message : String
  data : ChangeEventData
deriving DecidableEq

/-- The `ExperienceType` enum (`base-experience/types`). -/
inductive ExperienceType where
  | CONSOLE
  | CONTEXT
  | DASHBOARD
  | VISUAL
  | QSEARCH
deriving DecidableEq

/-- The `IDashboardExperience` record: the experience extracted from the url. -/
structure IDashboardExperience where
  experienceType : ExperienceType
  dashboardId : String
deriving DecidableEq

/-! ## The dashboard url grammar

`extractExperienceFromUrl` matches the url against

  `/^https:\/\/[^\/]+\/embed\/[^\/]+\/dashboards\/([\w-]+)(\?|$)/i`

This regex is deterministic: each `[^/]+` is a maximal run of non-`/`
characters (giving up characters cannot help, since the following literal
starts with `/`), `[\w-]+` is a maximal run of word-or-hyphen characters
(the following alternative `(\?|$)` accepts neither a word character nor a
hyphen), so backtracking never changes the outcome and the match is the
straight-line parse below. -/

/-- The class `\w` of a JavaScript regex without the `u` flag: `[A-Za-z0-9_]`;
the character class in the pattern is `[\w-]`. -/
def isWordOrHyphenChar (c : Char) : Bool :=
  c.isAlphanum || c = '_' || c = '-'

/-- Case-insensitive literal prefix stripping (the regex carries the `i`
flag), returning the remainder on success. -/
def stripCI : List Char → List Char → Option (List Char)
  | [], s => some s
  | _ :: _, [] => none
  | p :: ps, c :: cs => if c.toLower = p.toLower then stripCI ps cs else none

/-- The regex match of `extractExperienceFromUrl`, on the url's character
list: returns the characters captured by `([\w-]+)` (the dashboardId), or
`none` when the url does not match. -/
def matchDashboardPath (s : List Char) : Option (List Char) :=
  (stripCI "https://".data s).bind fun r1 =>
  let host := r1.takeWhile (fun c => !(c = '/'))
  let r2 := r1.dropWhile (fun c => !(c = '/'))
  if host.isEmpty then none else
  (stripCI "/embed/".data r2).bind fun r3 =>
  let guid := r3.takeWhile (fun c => !(c = '/'))
  let r4 := r3.dropWhile (fun c => !(c = '/'))
  if guid.isEmpty then none else
  (stripCI "/dashboards/".data r4).bind fun r5 =>
  let dashId := r5.takeWhile isWordOrHyphenChar
  let r6 := r5.dropWhile isWordOrHyphenChar
  if dashId.isEmpty then none else
  match r6 with
  | [] => some dashId
  | '?' :: _ => some dashId
  | _ => none

/-- Function `extractExperienceFromUrl` (dashboard-experience.ts, lines 183-206):
on a match, the extracted experience; otherwise the INVALID_URL ERROR change
event is delivered to `onChange` and `Error('Invalid dashboard experience
URL')` is thrown.  The returned list holds the change events emitted, in
order, before the function returns or throws. -/
def extractExperienceFromUrl (url : String) :
    List ChangeEvent × Except String IDashboardExperience :=
  match matchDashboardPath url.data with
  | some dashId =>
      ([], .ok { experienceType := .DASHBOARD, dashboardId := ⟨dashId⟩ })
  | none =>
      ([{ eventName := .INVALID_URL
          eventLevel := .ERROR
          message := "Invalid dashboard experience url"
          data := .urlData url }],
       .error "Invalid dashboard experience URL")

/-! ## Content option transformation -/

/-- The option keys destructured by name in `transformDashboardContentOptions`
(lines 219-229); everything else lands in `...unrecognizedContentOptions`. -/
def recognizedDashboardContentOptionKeys : List String :=
  ["parameters", "locale", "attributionOptions", "sheetOptions", "toolbarOptions", "onMessage"]

/-- The rest pattern `...unrecognizedContentOptions` of the destructuring in
`transformDashboardContentOptions`: every own property whose key is not
destructured by name. -/
def unrecognizedContentOptionsOf (contentOptions : List (String × JSVal)) :
    List (String × JSVal) :=
  contentOptions.filter
    (fun kv => !(recognizedDashboardContentOptionKeys.contains kv.1))

/-- The record `TransformedDashboardContentOptions`: the query-parameter record the
transform produces.  A field is `none` when the transform never assigned it.
The keys forwarded from the unrecognized content options are kept in
`unrecognized`. -/
structure TransformedDashboardContentOptions where
  locale : JSVal := .undefined
  parameters : Option (List (String × JSVal)) := none
  footerPaddingEnabled : Option Bool := none
  printEnabled : Option Bool := none
  undoRedoDisabled : Option Bool := none
  resetDisabled : Option Bool := none
  showBookmarksIcon : Option Bool := none
  sheetId : Option JSVal := none
  sheetTabsDisabled : Option Bool := none
  resizeOnSheetChange : Option Bool := none
  unrecognized : List (String × JSVal) := []

/-- Modelled from the spec: `BaseExperience.transformContentOptions` is not
under src/.  Per §4.1 and §7 of the spec and the construction call site, it
merges the recognized options (here `{locale}`) with the unrecognized ones
— which are "not dropped — reported but still forwarded" — and, when
unrecognized keys are present, emits exactly one WARN-level
UNRECOGNIZED_CONTENT_OPTIONS change event listing those keys. -/
def transformContentOptions (locale : JSVal)
    (unrecognizedContentOptions : List (String × JSVal)) :
    List ChangeEvent × TransformedDashboardContentOptions :=
  ((if unrecognizedContentOptions.isEmpty then []
    else [{ eventName := .UNRECOGNIZED_CONTENT_OPTIONS
            eventLevel := .WARN
            message := "Experience content options contain unrecognized properties"
            data := .unrecognizedKeys (unrecognizedContentOptions.map Prod.fst) }]),
   { locale := locale, unrecognized := unrecognizedContentOptions })

/-- The `parameters.reduce` of lines 239-247: fold the parameter array into
one object, spreading the accumulator and adding `[parameter.Name]:
parameter.Values` (a later duplicate name overwrites an earlier one).  The
computed key is the string coercion of `parameter.Name` (identity on the
strings the `Parameter` type admits). -/
def parametersReduce (items : List JSVal) : List (String × JSVal) :=
  items.foldl
    (fun parametersAsObject p =>
      objSet parametersAsObject (p.getProp "Name").interpolate (p.getProp "Values"))
    []

/-- Function `transformDashboardContentOptions` (lines 219-283).  The content options
object is an association list of own properties; the destructuring pattern
reads the recognized keys (the unused `onMessage` binding is dropped) and
collects the rest.  Each `if` of the source becomes a conditional record
update; the change events emitted during the transform are returned
alongside the result. -/
def transformDashboardContentOptions (contentOptions : List (String × JSVal)) :
    List ChangeEvent × TransformedDashboardContentOptions :=
  let parameters := getField contentOptions "parameters"
  let locale := getField contentOptions "locale"
  let attributionOptions := getField contentOptions "attributionOptions"
  let sheetOptions := getField contentOptions "sheetOptions"
  let toolbarOptions := getField contentOptions "toolbarOptions"
  let unrecognizedContentOptions := unrecognizedContentOptionsOf contentOptions
  let (events, t0) := transformContentOptions locale unrecognizedContentOptions
  let t1 := if parameters.isArray then
      { t0 with parameters := some (parametersReduce parameters.arrayItems) } else t0
  let t2 := if !(attributionOptions.getProp "overlayContent").isTrue then
      { t1 with footerPaddingEnabled := some true } else t1
  let t3 := if (toolbarOptions.getProp "export").truthy
      || ((toolbarOptions.getProp "export").getProp "print").truthy then
      { t2 with printEnabled := some true } else t2
  let t4 := if !(toolbarOptions.getProp "undoRedo").isTrue then
      { t3 with undoRedoDisabled := some true } else t3
  let t5 := if !(toolbarOptions.getProp "reset").isTrue then
      { t4 with resetDisabled := some true } else t4
  let t6 := if (toolbarOptions.getProp "bookmarks").isTrue then
      { t5 with showBookmarksIcon := some true } else t5
  let t7 := if (sheetOptions.getProp "initialSheetId").truthy then
      { t6 with sheetId := some (sheetOptions.getProp "initialSheetId") } else t6
  let t8 := if (sheetOptions.getProp "singleSheet").isBoolean then
      { t7 with sheetTabsDisabled := some (sheetOptions.getProp "singleSheet").asBool } else t7
  let t9 := if (sheetOptions.getProp "emitSizeChangedEventOnSheetChange").truthy then
      { t8 with resizeOnSheetChange := some true } else t8
  (events, t9)

/-! ## Construction -/

/-- The frame options read by the code under verification; `container`,
`width`/`height` and the DOM machinery are out of scope, and the `onChange`
callback is modelled by returning emitted events. -/
structure FrameOptions where
  url : String
  resizeHeightOnSizeChangedEvent : Option Bool := none

/-- The `InternalDashboardExperience` record: the extracted experience enriched with
the context id and discriminator. -/
structure InternalDashboardExperience where
  experienceType : ExperienceType
  dashboardId : String
  contextId : String
  discriminator : Nat
deriving DecidableEq

/-- The state a successful construction leaves behind: the extracted
experience, its internal identity, and the frame holding the transformed
content options. -/
structure DashboardExperienceState where
  experience : IDashboardExperience
  internalExperience : InternalDashboardExperience
  transformedContentOptions : TransformedDashboardContentOptions

/-- Modelled from the spec: `DashboardExperienceFrame` (not under src/)
emits the FRAME_STARTED INFO change event "Creating the frame" when frame
creation begins. -/
def frameStartedEvent : ChangeEvent :=
  { eventName := .FRAME_STARTED
    eventLevel := .INFO
    message := "Creating the frame"
    data := .experienceData }

/-- The `DashboardExperience` constructor (lines 37-64): extract the
experience from the url — on failure the INVALID_URL event has been emitted
and the error propagates, so no experience state or frame is created — then
derive the internal experience (`getInternalExperienceInfo` is not under
src/; modelled from the spec as attaching the contextId and a registry
discriminator, here the first assignment 0) and build the experience frame
with the transformed content options.  Events are returned in emission
order. -/
def constructDashboardExperience (frameOptions : FrameOptions)
    (contentOptions : List (String × JSVal)) (contextId : String) :
    List ChangeEvent × Except String DashboardExperienceState :=
  match extractExperienceFromUrl frameOptions.url with
  | (events, .error e) => (events, .error e)
  | (events, .ok experience) =>
      let internalExperience : InternalDashboardExperience :=
        { experienceType := experience.experienceType
          dashboardId := experience.dashboardId
          contextId := contextId
          discriminator := 0 }
      let (transformEvents, transformed) :=
        transformDashboardContentOptions contentOptions
      (events ++ transformEvents ++ [frameStartedEvent],
       .ok { experience := experience
             internalExperience := internalExperience
             transformedContentOptions := transformed })

/-! ## Facade operations -/

/-- A `Parameter` (`common/types`): a named parameter with its values. -/
structure Parameter where
  Name : String
  Values : List String
deriving DecidableEq

/-- Modelled from the spec: `Sheet` is declared outside src/; the facade
never inspects its fields, so the shape (from the protocol surface) is
irrelevant to the claims. -/
structure Sheet where
  SheetId : String
  Name : String
deriving DecidableEq

/-- Modelled from the spec: `Visual` is declared outside src/. -/
structure Visual where
  VisualId : String
  Name : String
deriving DecidableEq

/-- Modelled from the spec: `VisualAction` is declared outside src/; shape
taken from the action fixtures of the repository's tests. -/
structure VisualAction where
  CustomActionId : String
  Name : String
  Status : String
  Trigger : String
deriving DecidableEq

/-- The `MessageEventName` constants sent by the operations modelled here. -/
inductive MessageEventName where
  | GET_PARAMETERS
  | GET_SHEETS
  | GET_VISUAL_ACTIONS
  | GET_SHEET_VISUALS
  | GET_SELECTED_SHEET_ID
deriving DecidableEq

/-- An outbound request envelope (`EmbeddingMessageEvent`). -/
structure EmbeddingMessageEvent where
  eventName : MessageEventName
  message : JSVal := .undefined

/-- The response the channel resolves a request with (`ResponseMessage`);
the facade reads only its optional `message` payload. -/
structure ResponseMessage (α : Type) where
  message : Option α

/-- Operation `getParameters` (lines 82-86): sends GET_PARAMETERS and resolves with
`response?.message ?? []`.  First component: the envelope handed to
`this.send`; second: the resolved value as a function of the response the
channel returned, where `none` models an absent (undefined) response and
`message := none` an absent payload. -/
def getParameters (response : Option (ResponseMessage (List Parameter))) :
    EmbeddingMessageEvent × List Parameter :=
  ({ eventName := .GET_PARAMETERS },
   (response.bind ResponseMessage.message).getD [])

/-- Operation `getSheets` (lines 88-92): `response?.message ?? []`. -/
def getSheets (response : Option (ResponseMessage (List Sheet))) :
    EmbeddingMessageEvent × List Sheet :=
  ({ eventName := .GET_SHEETS },
   (response.bind ResponseMessage.message).getD [])

/-- Operation `getVisualActions` (lines 94-103): sends GET_VISUAL_ACTIONS with the
sheet and visual ids and resolves with `response?.message ?? []`. -/
def getVisualActions (sheetId visualId : String)
    (response : Option (ResponseMessage (List VisualAction))) :
    EmbeddingMessageEvent × List VisualAction :=
  ({ eventName := .GET_VISUAL_ACTIONS
     message := .obj [("SheetId", .str sheetId), ("VisualId", .str visualId)] },
   (response.bind ResponseMessage.message).getD [])

/-- Operation `getSheetVisuals` (lines 165-173): sends GET_SHEET_VISUALS with the
sheet id and resolves with `response?.message ?? []`. -/
def getSheetVisuals (sheetId : String)
    (response : Option (ResponseMessage (List Visual))) :
    EmbeddingMessageEvent × List Visual :=
  ({ eventName := .GET_SHEET_VISUALS
     message := .obj [("SheetId", .str sheetId)] },
   (response.bind ResponseMessage.message).getD [])

/-- Operation `getSelectedSheetId` (lines 125-129): `response?.message ?? ''`. -/
def getSelectedSheetId (response : Option (ResponseMessage String)) :
    EmbeddingMessageEvent × String :=
  ({ eventName := .GET_SELECTED_SHEET_ID },
   (response.bind ResponseMessage.message).getD "")

/-! ## Message interception -/

/-- The iframe element, reduced to its attribute map. -/
structure FrameElement where
  attributes : List (String × String)
deriving DecidableEq

/-- DOM `element.setAttribute(name, value)`. -/
def FrameElement.setAttribute (f : FrameElement) (name value : String) :
    FrameElement :=
  { attributes :=
      if f.attributes.any (fun kv => kv.1 = name) then
        f.attributes.map (fun kv => if kv.1 = name then (name, value) else kv)
      else
        f.attributes ++ [(name, value)] }

/-- The `ExperienceFrameMetadata` record: carries the (possibly null) frame element. -/
structure ExperienceFrameMetadata where
  frame : Option FrameElement
deriving DecidableEq

/-- An inbound message event as `interceptMessage` sees it (`EmbeddingEvents`):
a string event name and an optional payload. -/
structure EmbeddingEvent where
  eventName : String
  message : JSVal := .undefined

/-- Hook `interceptMessage` (lines 208-214): on a SIZE_CHANGED event, when
`frameOptions.resizeHeightOnSizeChangedEvent` is truthy (it is typed
`boolean | undefined`), set the frame element's height attribute to
`` `${messageEvent?.message?.height}px` ``; otherwise leave everything
untouched.  Returns the (possibly updated) metadata. -/
def interceptMessage (frameOptions : FrameOptions)
    (messageEvent : EmbeddingEvent) (metadata : Option ExperienceFrameMetadata) :
    Option ExperienceFrameMetadata :=
  if messageEvent.eventName = "SIZE_CHANGED"
      && frameOptions.resizeHeightOnSizeChangedEvent.getD false then
    metadata.map (fun m =>
      { m with frame := m.frame.map (fun f =>
          f.setAttribute "height"
            ((messageEvent.message.getProp "height").interpolate ++ "px")) })
  else
    metadata

/-- The non-empty path components the dashboard url grammar accepts between
the fixed separators: `[^/]+`. -/
abbrev validHostPart (s : String) : Prop :=
  s.data ≠ [] ∧ ∀ c ∈ s.data, ¬ c = '/'

/-- The dashboard id component: `[\w-]+`. -/
abbrev validDashboardIdPart (s : String) : Prop :=
  s.data ≠ [] ∧ ∀ c ∈ s.data, isWordOrHyphenChar c = true

/-- The JS value a typed `Parameter` crosses into the transform as: an
object with a string Name and an array of string Values. -/
def Parameter.toJS (p : Parameter) : JSVal :=
  .obj [("Name", .str p.Name), ("Values", .array (p.Values.map JSVal.str))]

/-- Modelled from the spec: the decode direction of the round-trip of §4.5
("parameter list ↔ named-collection transformation symmetry") is not under
src/; faithful to the spec's words, each entry of the name→values mapping
becomes one {Name, Values} parameter. -/
def parameterValuesOf : JSVal → List String
  | .array l => l.filterMap (fun v => match v with | .str s => some s | _ => none)
  | _ => []

/-- Modelled from the spec: converting the name→values mapping back to a
parameter list, one parameter per mapping entry. -/
def parametersFromObject (fields : List (String × JSVal)) : List Parameter :=
  fields.map (fun kv => { Name := kv.1, Values := parameterValuesOf kv.2 })

/-! ## Helper lemmas -/

theorem stripCI_self_append (l r : List Char) : stripCI l (l ++ r) = some r := by
  induction l with
  | nil => rfl
  | cons c cs ih => simp [stripCI, ih]

theorem takeWhile_append_stop {α : Type} (p : α → Bool) (xs ys : List α)
    (h : ∀ x ∈ xs, p x = true) (hy : ∀ c, ys.head? = some c → p c = false) :
    (xs ++ ys).takeWhile p = xs ∧ (xs ++ ys).dropWhile p = ys := by
  induction xs with
  | nil =>
      cases ys with
      | nil => simp
      | cons y ys' =>
          have hpy := hy y rfl
          simp [List.takeWhile_cons, List.dropWhile_cons, hpy]
  | cons a as ih =>
      have ha := h a (by simp)
      have ih' := ih (fun x hx => h x (by simp [hx]))
      simp [List.takeWhile_cons, List.dropWhile_cons, ha, ih'.1, ih'.2]

theorem matchDashboardPath_decompose (host guid dashId : String)
    (hh : validHostPart host) (hg : validHostPart guid)
    (hi : validDashboardIdPart dashId) (tail : List Char)
    (ht : ∀ c, tail.head? = some c → isWordOrHyphenChar c = false) :
    matchDashboardPath
        (("https://" ++ host ++ "/embed/" ++ guid ++ "/dashboards/" ++ dashId).data ++ tail)
      = if tail = [] ∨ tail.head? = some '?' then some dashId.data else none := by
  have hdata :
      ("https://" ++ host ++ "/embed/" ++ guid ++ "/dashboards/" ++ dashId).data ++ tail
        = "https://".data ++ (host.data ++ ("/embed/".data ++ (guid.data
            ++ ("/dashboards/".data ++ (dashId.data ++ tail))))) := by
    simp [String.data_append, List.append_assoc]
  have hslash : ∀ (s : List Char) (c : Char),
      (('/' :: s).head? = some c) → (!(c = '/')) = false := by
    intro s c hc
    simp only [List.head?] at hc
    cases hc
    simp
  have hhost := takeWhile_append_stop (fun c => !(c = '/')) host.data
      ('/' :: ("embed/".data ++ (guid.data ++ ("/dashboards/".data ++ (dashId.data ++ tail)))))
      (by intro x hx; simpa using hh.2 x hx) (hslash _)
  have hguid := takeWhile_append_stop (fun c => !(c = '/')) guid.data
      ('/' :: ("dashboards/".data ++ (dashId.data ++ tail)))
      (by intro x hx; simpa using hg.2 x hx) (hslash _)
  have hid := takeWhile_append_stop isWordOrHyphenChar dashId.data tail
      (fun x hx => hi.2 x hx) ht
  rw [hdata]
  simp only [matchDashboardPath]
  rw [stripCI_self_append, Option.some_bind]
  have e1 : ("/embed/".data : List Char)
      ++ (guid.data ++ ("/dashboards/".data ++ (dashId.data ++ tail)))
      = '/' :: ("embed/".data ++ (guid.data ++ ("/dashboards/".data ++ (dashId.data ++ tail)))) := rfl
  rw [e1, hhost.1, hhost.2]
  rw [if_neg (show ¬(host.data.isEmpty = true) by simpa [List.isEmpty_iff] using hh.1)]
  have e2 : ('/' :: ("embed/".data ++ (guid.data ++ ("/dashboards/".data ++ (dashId.data ++ tail)))))
      = "/embed/".data ++ (guid.data ++ ("/dashboards/".data ++ (dashId.data ++ tail))) := rfl
  rw [e2, stripCI_self_append, Option.some_bind]
  have e3 : ("/dashboards/".data : List Char) ++ (dashId.data ++ tail)
      = '/' :: ("dashboards/".data ++ (dashId.data ++ tail)) := rfl
  rw [e3, hguid.1, hguid.2]
  rw [if_neg (show ¬(guid.data.isEmpty = true) by simpa [List.isEmpty_iff] using hg.1)]
  have e4 : ('/' :: ("dashboards/".data ++ (dashId.data ++ tail)))
      = "/dashboards/".data ++ (dashId.data ++ tail) := rfl
  rw [e4, stripCI_self_append, Option.some_bind]
  rw [hid.1, hid.2]
  rw [if_neg (show ¬(dashId.data.isEmpty = true) by simpa [List.isEmpty_iff] using hi.1)]
  rcases tail with _ | ⟨c, rest⟩
  · simp
  · by_cases hc : c = '?'
    · subst hc
      simp [List.head?]
    · have hcond : ¬(c :: rest = [] ∨ (c :: rest).head? = some '?') := by
        simp [List.head?, hc]
      rw [if_neg hcond]
      split <;> simp_all [List.head?]

/-- C5, main direction, shared with C1's grammar reasoning: a url built from
the grammar with an empty or `?`-led tail matches and captures the id. -/
theorem matchDashboardPath_ok (host guid dashId : String)
    (hh : validHostPart host) (hg : validHostPart guid)
    (hi : validDashboardIdPart dashId) (tail : List Char)
    (ht : tail = [] ∨ ∃ rest, tail = '?' :: rest) :
    matchDashboardPath
        (("https://" ++ host ++ "/embed/" ++ guid ++ "/dashboards/" ++ dashId).data ++ tail)
      = some dashId.data := by
  rcases ht with h | ⟨rest, h⟩ <;> subst h
  · rw [matchDashboardPath_decompose host guid dashId hh hg hi [] (by intro c hc; cases hc)]
    simp
  · rw [matchDashboardPath_decompose host guid dashId hh hg hi ('?' :: rest)
        (by intro c hc; simp only [List.head?] at hc; cases hc; decide)]
    simp [List.head?]

/-- C5: for every url of the shape
`https://{host}/embed/{guid}/dashboards/{dashboardId}` — host and guid
non-empty without `/`, dashboardId a non-empty run of word characters and
hyphens — with the path ending there or followed by `?` and a query,
`extractExperienceFromUrl` succeeds, emits no change event, and returns the
DASHBOARD experience whose dashboardId is the path segment after
`/dashboards/`; and appending a visual-style `/sheets/...` suffix instead
makes the extraction fail. -/
theorem dashboard_url_extraction_correct (host guid dashId query rest : String)
    (hh : validHostPart host) (hg : validHostPart guid)
    (hi : validDashboardIdPart dashId) :
    (extractExperienceFromUrl
        ("https://" ++ host ++ "/embed/" ++ guid ++ "/dashboards/" ++ dashId)
      = ([], .ok { experienceType := .DASHBOARD, dashboardId := dashId }))
  ∧ (extractExperienceFromUrl
        ("https://" ++ host ++ "/embed/" ++ guid ++ "/dashboards/" ++ dashId ++ "?" ++ query)
      = ([], .ok { experienceType := .DASHBOARD, dashboardId := dashId }))
  ∧ ((extractExperienceFromUrl
        ("https://" ++ host ++ "/embed/" ++ guid ++ "/dashboards/" ++ dashId ++ "/sheets/" ++ rest)).2
      = .error "Invalid dashboard experience URL") := by
  have base := matchDashboardPath_ok host guid dashId hh hg hi
  refine ⟨?_, ?_, ?_⟩
  · have h1 := base [] (Or.inl rfl)
    rw [List.append_nil] at h1
    unfold extractExperienceFromUrl
    rw [h1]
  · have h2 := base ('?' :: query.data) (Or.inr ⟨query.data, rfl⟩)
    have hq : ("?".data : List Char) = ['?'] := rfl
    have hd : ("https://" ++ host ++ "/embed/" ++ guid ++ "/dashboards/" ++ dashId ++ "?" ++ query).data
        = ("https://" ++ host ++ "/embed/" ++ guid ++ "/dashboards/" ++ dashId).data
            ++ ('?' :: query.data) := by
      simp [String.data_append, List.append_assoc, hq]
    unfold extractExperienceFromUrl
    rw [hd, h2]
  · have h3 := matchDashboardPath_decompose host guid dashId hh hg hi
        ('/' :: ("sheets/".data ++ rest.data))
        (by intro c hc; simp only [List.head?] at hc; cases hc; decide)
    rw [if_neg (by simp [List.head?])] at h3
    have hs : ("/sheets/".data : List Char) ++ rest.data
        = '/' :: ("sheets/".data ++ rest.data) := rfl
    have hd : ("https://" ++ host ++ "/embed/" ++ guid ++ "/dashboards/" ++ dashId ++ "/sheets/" ++ rest).data
        = ("https://" ++ host ++ "/embed/" ++ guid ++ "/dashboards/" ++ dashId).data
            ++ ('/' :: ("sheets/".data ++ rest.data)) := by
      rw [← hs]
      simp [String.data_append, List.append_assoc]
    unfold extractExperienceFromUrl
    rw [hd, h3]

theorem dashboard_url_extraction_correct_witness :
    extractExperienceFromUrl
        ("https://" ++ "test.amazon.com" ++ "/embed/" ++ "testGuid"
          ++ "/dashboards/" ++ "testDashboardId" ++ "?" ++ "test=test")
      = ([], .ok { experienceType := .DASHBOARD, dashboardId := "testDashboardId" }) :=
  (dashboard_url_extraction_correct "test.amazon.com" "testGuid" "testDashboardId"
    "test=test" "s/visuals/v" (by decide) (by decide) (by decide)).2.1

/-- C1: for every url the dashboard path grammar (the regex of
`extractExperienceFromUrl`) rejects, constructing a `DashboardExperience`
emits exactly the INVALID_URL ERROR change event through `onChange` (before
the throw: it is in the emission list even though construction aborts) and
throws `Error('Invalid dashboard experience URL')`; the result carries no
experience state, so no experience or frame is created. -/
theorem invalid_url_construction_throws (frameOptions : FrameOptions)
    (contentOptions : List (String × JSVal)) (contextId : String)
    (hmatch : matchDashboardPath frameOptions.url.data = none) :
    constructDashboardExperience frameOptions contentOptions contextId
      = ([{ eventName := .INVALID_URL
            eventLevel := .ERROR
            message := "Invalid dashboard experience url"
            data := .urlData frameOptions.url }],
         .error "Invalid dashboard experience URL") := by
  unfold constructDashboardExperience extractExperienceFromUrl
  rw [hmatch]

theorem invalid_url_construction_throws_witness :
    constructDashboardExperience { url := "https://invalid" } [] "ctx"
      = ([{ eventName := .INVALID_URL
            eventLevel := .ERROR
            message := "Invalid dashboard experience url"
            data := .urlData "https://invalid" }],
         .error "Invalid dashboard experience URL") :=
  invalid_url_construction_throws { url := "https://invalid" } [] "ctx" (by decide)

/-! ## Field-level characterization of the transform -/

theorem transform_events (co : List (String × JSVal)) :
    (transformDashboardContentOptions co).1
      = if (unrecognizedContentOptionsOf co).isEmpty then []
        else [{ eventName := .UNRECOGNIZED_CONTENT_OPTIONS
                eventLevel := .WARN
                message := "Experience content options contain unrecognized properties"
                data := .unrecognizedKeys ((unrecognizedContentOptionsOf co).map Prod.fst) }] := by
  unfold transformDashboardContentOptions transformContentOptions
  simp

theorem transform_unrecognized (co : List (String × JSVal)) :
    (transformDashboardContentOptions co).2.unrecognized
      = unrecognizedContentOptionsOf co := by
  unfold transformDashboardContentOptions transformContentOptions
  simp only [apply_ite TransformedDashboardContentOptions.unrecognized]
  simp only [ite_self]

theorem transform_parameters (co : List (String × JSVal)) :
    (transformDashboardContentOptions co).2.parameters
      = if (getField co "parameters").isArray then
          some (parametersReduce (getField co "parameters").arrayItems)
        else none := by
  unfold transformDashboardContentOptions transformContentOptions
  simp only [apply_ite TransformedDashboardContentOptions.parameters]
  simp only [ite_self]

theorem transform_footerPaddingEnabled (co : List (String × JSVal)) :
    (transformDashboardContentOptions co).2.footerPaddingEnabled
      = if ((getField co "attributionOptions").getProp "overlayContent").isTrue
        then none else some true := by
  unfold transformDashboardContentOptions transformContentOptions
  simp only [apply_ite TransformedDashboardContentOptions.footerPaddingEnabled]
  simp only [ite_self]
  cases hx : ((getField co "attributionOptions").getProp "overlayContent").isTrue <;>
    simp [hx]

theorem transform_printEnabled (co : List (String × JSVal)) :
    (transformDashboardContentOptions co).2.printEnabled
      = if ((getField co "toolbarOptions").getProp "export").truthy
            || (((getField co "toolbarOptions").getProp "export").getProp "print").truthy
        then some true else none := by
  unfold transformDashboardContentOptions transformContentOptions
  simp only [apply_ite TransformedDashboardContentOptions.printEnabled]
  simp only [ite_self]

theorem transform_undoRedoDisabled (co : List (String × JSVal)) :
    (transformDashboardContentOptions co).2.undoRedoDisabled
      = if ((getField co "toolbarOptions").getProp "undoRedo").isTrue then none
        else some true := by
  unfold transformDashboardContentOptions transformContentOptions
  simp only [apply_ite TransformedDashboardContentOptions.undoRedoDisabled]
  simp only [ite_self]
  cases hx : ((getField co "toolbarOptions").getProp "undoRedo").isTrue <;> simp [hx]

theorem transform_resetDisabled (co : List (String × JSVal)) :
    (transformDashboardContentOptions co).2.resetDisabled
      = if ((getField co "toolbarOptions").getProp "reset").isTrue then none
        else some true := by
  unfold transformDashboardContentOptions transformContentOptions
  simp only [apply_ite TransformedDashboardContentOptions.resetDisabled]
  simp only [ite_self]
  cases hx : ((getField co "toolbarOptions").getProp "reset").isTrue <;> simp [hx]

theorem transform_sheetTabsDisabled (co : List (String × JSVal)) :
    (transformDashboardContentOptions co).2.sheetTabsDisabled
      = if ((getField co "sheetOptions").getProp "singleSheet").isBoolean then
          some ((getField co "sheetOptions").getProp "singleSheet").asBool
        else none := by
  unfold transformDashboardContentOptions transformContentOptions
  simp only [apply_ite TransformedDashboardContentOptions.sheetTabsDisabled]
  simp only [ite_self]

/-- C7: the singleSheet content option is renamed to the sheetTabsDisabled
transformed parameter: whenever `sheetOptions.singleSheet` is the boolean
`b`, the transformed options carry `sheetTabsDisabled = b`; when it is
absent or not a boolean (`typeof ... === 'boolean'` fails), the
sheetTabsDisabled parameter is not set. -/
theorem singleSheet_becomes_sheetTabsDisabled (co : List (String × JSVal)) :
    (transformDashboardContentOptions co).2.sheetTabsDisabled
      = match (getField co "sheetOptions").getProp "singleSheet" with
        | .bool b => some b
        | _ => none := by
  rw [transform_sheetTabsDisabled]
  cases hx : (getField co "sheetOptions").getProp "singleSheet" <;>
    simp [JSVal.isBoolean, JSVal.asBool]

/-- C8: the toolbar undo/redo and reset options and the attribution overlay
option are opt-in with strict boolean checks (`!== true`): the transform
sets `undoRedoDisabled`, `resetDisabled` and `footerPaddingEnabled` to true
unless the corresponding option is exactly the boolean `true`; truthy
non-true values (such as the number 1, shown in the last conjunct) do not
count as enabled. -/
theorem strict_boolean_optin (co : List (String × JSVal)) :
    ((transformDashboardContentOptions co).2.undoRedoDisabled
        = if ((getField co "toolbarOptions").getProp "undoRedo").isTrue then none
          else some true)
  ∧ ((transformDashboardContentOptions co).2.resetDisabled
        = if ((getField co "toolbarOptions").getProp "reset").isTrue then none
          else some true)
  ∧ ((transformDashboardContentOptions co).2.footerPaddingEnabled
        = if ((getField co "attributionOptions").getProp "overlayContent").isTrue then none
          else some true)
  ∧ ((transformDashboardContentOptions
        [("toolbarOptions", .obj [("undoRedo", .num 1), ("reset", .str "yes")]),
         ("attributionOptions", .obj [("overlayContent", .num 1)])]).2.undoRedoDisabled
          = some true
      ∧ (transformDashboardContentOptions
        [("toolbarOptions", .obj [("undoRedo", .num 1), ("reset", .str "yes")]),
         ("attributionOptions", .obj [("overlayContent", .num 1)])]).2.resetDisabled
          = some true
      ∧ (transformDashboardContentOptions
        [("toolbarOptions", .obj [("undoRedo", .num 1), ("reset", .str "yes")]),
         ("attributionOptions", .obj [("overlayContent", .num 1)])]).2.footerPaddingEnabled
          = some true) := by
  refine ⟨transform_undoRedoDisabled co, transform_resetDisabled co,
    transform_footerPaddingEnabled co, ?_, ?_, ?_⟩
  · rw [transform_undoRedoDisabled]
    rfl
  · rw [transform_resetDisabled]
    rfl
  · rw [transform_footerPaddingEnabled]
    rfl

/-- C9: the transform sets printEnabled exactly when `toolbarOptions.export`
is truthy; the nested `export.print` sub-option has no independent effect,
because a falsy export value is never an object and so its `print` property
reads as undefined. -/
theorem printEnabled_iff_export_truthy (co : List (String × JSVal)) :
    (transformDashboardContentOptions co).2.printEnabled
      = if ((getField co "toolbarOptions").getProp "export").truthy
        then some true else none := by
  rw [transform_printEnabled]
  cases hx : (getField co "toolbarOptions").getProp "export" <;>
    simp [JSVal.truthy, JSVal.getProp]

/-- C10: the onMessage callback is excluded from option transformation: the
transform's result (both the transformed options and the change events) is
unchanged by an onMessage entry in the content options, the forwarded
unrecognized options never contain the onMessage key, and no
UNRECOGNIZED_CONTENT_OPTIONS change event ever lists it. -/
theorem onMessage_excluded (co : List (String × JSVal)) (v : JSVal) :
    (transformDashboardContentOptions (("onMessage", v) :: co)
        = transformDashboardContentOptions co)
  ∧ ("onMessage" ∉ (transformDashboardContentOptions co).2.unrecognized.map Prod.fst)
  ∧ (∀ e ∈ (transformDashboardContentOptions co).1, ∀ ks,
        e.data = .unrecognizedKeys ks → "onMessage" ∉ ks) := by
  have hmem : ∀ (l : List (String × JSVal)),
      "onMessage" ∉ (unrecognizedContentOptionsOf l).map Prod.fst := by
    intro l hm
    obtain ⟨kv, hkv, hfst⟩ := List.mem_map.mp hm
    have hp := (List.mem_filter.mp hkv).2
    rw [hfst] at hp
    simp [recognizedDashboardContentOptionKeys] at hp
  refine ⟨?_, ?_, ?_⟩
  · unfold transformDashboardContentOptions
    have hpar : getField (("onMessage", v) :: co) "parameters"
        = getField co "parameters" := by simp [getField]
    have hloc : getField (("onMessage", v) :: co) "locale"
        = getField co "locale" := by simp [getField]
    have hattr : getField (("onMessage", v) :: co) "attributionOptions"
        = getField co "attributionOptions" := by simp [getField]
    have hsheet : getField (("onMessage", v) :: co) "sheetOptions"
        = getField co "sheetOptions" := by simp [getField]
    have htool : getField (("onMessage", v) :: co) "toolbarOptions"
        = getField co "toolbarOptions" := by simp [getField]
    have h2 : unrecognizedContentOptionsOf (("onMessage", v) :: co)
        = unrecognizedContentOptionsOf co := by
      unfold unrecognizedContentOptionsOf
      simp [recognizedDashboardContentOptionKeys]
    rw [hpar, hloc, hattr, hsheet, htool, h2]
  · rw [transform_unrecognized]
    exact hmem co
  · intro e he ks hks
    rw [transform_events] at he
    by_cases hempty : (unrecognizedContentOptionsOf co).isEmpty
    · rw [if_pos hempty] at he
      cases he
    · rw [if_neg hempty] at he
      rcases List.mem_singleton.mp he with rfl
      injection hks with hks
      rw [← hks]
      exact hmem co

/-- C6: for content options with keys outside the recognized table,
construction still succeeds (provided the url is valid), exactly one
WARN-level UNRECOGNIZED_CONTENT_OPTIONS change event is emitted listing
exactly those keys, and the unrecognized entries are still forwarded into
the transformed content options rather than dropped. -/
theorem unrecognized_options_warn_and_forward (fo : FrameOptions)
    (co : List (String × JSVal)) (ctx : String)
    (hurl : (matchDashboardPath fo.url.data).isSome = true)
    (hkeys : (unrecognizedContentOptionsOf co).isEmpty = false) :
    (∃ st, (constructDashboardExperience fo co ctx).2 = .ok st
        ∧ st.transformedContentOptions.unrecognized = unrecognizedContentOptionsOf co)
  ∧ (constructDashboardExperience fo co ctx).1.filter
        (fun e => e.eventName == ChangeEventName.UNRECOGNIZED_CONTENT_OPTIONS)
      = [{ eventName := .UNRECOGNIZED_CONTENT_OPTIONS
           eventLevel := .WARN
           message := "Experience content options contain unrecognized properties"
           data := .unrecognizedKeys ((unrecognizedContentOptionsOf co).map Prod.fst) }] := by
  obtain ⟨dashId, hid⟩ := Option.isSome_iff_exists.mp hurl
  rcases htr : transformDashboardContentOptions co with ⟨tev, tr⟩
  have h2 : tr.unrecognized = unrecognizedContentOptionsOf co := by
    have h := transform_unrecognized co
    rw [htr] at h
    exact h
  have h1 : tev
      = [{ eventName := .UNRECOGNIZED_CONTENT_OPTIONS
           eventLevel := .WARN
           message := "Experience content options contain unrecognized properties"
           data := .unrecognizedKeys ((unrecognizedContentOptionsOf co).map Prod.fst) }] := by
    have h := transform_events co
    rw [htr] at h
    rw [if_neg (by simp [hkeys])] at h
    exact h
  have hcon : constructDashboardExperience fo co ctx
      = ([] ++ tev ++ [frameStartedEvent],
         .ok { experience := { experienceType := .DASHBOARD, dashboardId := ⟨dashId⟩ }
               internalExperience :=
                 { experienceType := .DASHBOARD
                   dashboardId := ⟨dashId⟩
                   contextId := ctx
                   discriminator := 0 }
               transformedContentOptions := tr }) := by
    unfold constructDashboardExperience extractExperienceFromUrl
    rw [hid, htr]
  rw [hcon, h1]
  constructor
  · exact ⟨_, rfl, h2⟩
  · simp [frameStartedEvent, List.filter]
    rfl

theorem unrecognized_options_warn_and_forward_witness :
    (∃ st, (constructDashboardExperience { url := "https://h/embed/g/dashboards/d" }
        [("testUnrecognizedContentOption", .str "some value")] "ctx").2 = .ok st
        ∧ st.transformedContentOptions.unrecognized
            = unrecognizedContentOptionsOf
                [("testUnrecognizedContentOption", .str "some value")])
  ∧ (constructDashboardExperience { url := "https://h/embed/g/dashboards/d" }
        [("testUnrecognizedContentOption", .str "some value")] "ctx").1.filter
        (fun e => e.eventName == ChangeEventName.UNRECOGNIZED_CONTENT_OPTIONS)
      = [{ eventName := .UNRECOGNIZED_CONTENT_OPTIONS
           eventLevel := .WARN
           message := "Experience content options contain unrecognized properties"
           data := .unrecognizedKeys
              ((unrecognizedContentOptionsOf
                  [("testUnrecognizedContentOption", .str "some value")]).map Prod.fst) }] :=
  unrecognized_options_warn_and_forward { url := "https://h/embed/g/dashboards/d" }
    [("testUnrecognizedContentOption", .str "some value")] "ctx" (by decide) (by decide)

theorem onMessage_excluded_witness :
    (transformDashboardContentOptions [("onMessage", .str "cb"), ("foo", .num 1)]
        = transformDashboardContentOptions [("foo", .num 1)])
  ∧ ("onMessage" ∉ (transformDashboardContentOptions
        [("foo", .num 1)]).2.unrecognized.map Prod.fst)
  ∧ (∀ e ∈ (transformDashboardContentOptions [("foo", .num 1)]).1, ∀ ks,
        e.data = .unrecognizedKeys ks → "onMessage" ∉ ks) :=
  onMessage_excluded [("foo", .num 1)] (.str "cb")

/-! ## Parameter round-trip (C2) -/

theorem parameterValuesOf_encode (vs : List String) :
    parameterValuesOf (JSVal.array (vs.map JSVal.str)) = vs := by
  simp only [parameterValuesOf]
  rw [List.filterMap_map]
  have h : (fun v => match v with | JSVal.str s => some s | _ => none) ∘ JSVal.str
      = some := rfl
  rw [h, List.filterMap_some]

theorem parametersReduce_foldl_nodup (ps : List Parameter) (acc : List (String × JSVal))
    (hdisj : ∀ p ∈ ps, ∀ kv ∈ acc, kv.1 ≠ p.Name)
    (hnodup : (ps.map Parameter.Name).Nodup) :
    (ps.map Parameter.toJS).foldl
        (fun parametersAsObject p =>
          objSet parametersAsObject (p.getProp "Name").interpolate (p.getProp "Values"))
        acc
      = acc ++ ps.map (fun p => (p.Name, JSVal.array (p.Values.map JSVal.str))) := by
  induction ps generalizing acc with
  | nil => simp
  | cons p ps ih =>
      simp only [List.map_cons, List.foldl_cons]
      have hname : ((Parameter.toJS p).getProp "Name").interpolate = p.Name := rfl
      have hvals : (Parameter.toJS p).getProp "Values"
          = JSVal.array (p.Values.map JSVal.str) := rfl
      have hany : (acc.any (fun kv => kv.1 = p.Name)) = false := by
        cases hc : acc.any (fun kv => kv.1 = p.Name) with
        | false => rfl
        | true =>
            rw [List.any_eq_true] at hc
            obtain ⟨kv, hkv, hkveq⟩ := hc
            exact absurd (by simpa using hkveq) (hdisj p (by simp) kv hkv)
      have hstep : objSet acc ((Parameter.toJS p).getProp "Name").interpolate
            ((Parameter.toJS p).getProp "Values")
          = acc ++ [(p.Name, JSVal.array (p.Values.map JSVal.str))] := by
        rw [hname, hvals]
        unfold objSet
        simp only [hany]
        simp
      rw [hstep]
      rw [List.map_cons, List.nodup_cons] at hnodup
      have hdisj' : ∀ q ∈ ps, ∀ kv ∈ acc ++ [(p.Name, JSVal.array (p.Values.map JSVal.str))],
          kv.1 ≠ q.Name := by
        intro q hq kv hkv
        rcases List.mem_append.mp hkv with hkv | hkv
        · exact hdisj q (by simp [hq]) kv hkv
        · rcases List.mem_singleton.mp hkv with rfl
          intro hcontra
          have hpq : p.Name = q.Name := hcontra
          refine hnodup.1 ?_
          rw [hpq]
          exact List.mem_map.mpr ⟨q, hq, rfl⟩
      rw [ih _ hdisj' hnodup.2]
      simp

/-- C2 (amended): for every parameter list whose Names are pairwise
distinct, transforming the list into the name→values mapping of the
transformed content options and converting that mapping back yields the
original list exactly. -/
theorem parameters_round_trip (ps : List Parameter) (co : List (String × JSVal))
    (hnodup : (ps.map Parameter.Name).Nodup) :
    parametersFromObject
        (((transformDashboardContentOptions
            (("parameters", .array (ps.map Parameter.toJS)) :: co)).2.parameters).getD [])
      = ps := by
  rw [transform_parameters]
  have hget : getField (("parameters", JSVal.array (ps.map Parameter.toJS)) :: co)
      "parameters" = JSVal.array (ps.map Parameter.toJS) := by
    simp [getField]
  rw [hget]
  simp only [JSVal.isArray, JSVal.arrayItems, if_true, Option.getD_some]
  have hred : parametersReduce (ps.map Parameter.toJS)
      = ps.map (fun p => (p.Name, JSVal.array (p.Values.map JSVal.str))) := by
    unfold parametersReduce
    have h := parametersReduce_foldl_nodup ps [] (by simp) hnodup
    simpa using h
  rw [hred]
  unfold parametersFromObject
  rw [List.map_map]
  have hfun : ((fun kv => ({ Name := kv.1, Values := parameterValuesOf kv.2 } : Parameter))
        ∘ (fun p => (p.Name, JSVal.array (p.Values.map JSVal.str)))) = id := by
    funext p
    simp only [Function.comp_apply, id_eq]
    rw [parameterValuesOf_encode]
  rw [hfun, List.map_id]

theorem parameters_round_trip_witness :
    parametersFromObject
        (((transformDashboardContentOptions
            (("parameters",
              .array ([({ Name := "State", Values := ["CT"] } : Parameter)].map Parameter.toJS))
             :: [])).2.parameters).getD [])
      = [({ Name := "State", Values := ["CT"] } : Parameter)] :=
  parameters_round_trip [{ Name := "State", Values := ["CT"] }] [] (by simp)

/-- C2, counterexample to the claim as stated: with two entries sharing the
Name "State", the later entry's Values overwrite the earlier one's in the
name→values mapping, so converting back does not restore the original list
(the "State"→["CT"] association is lost). -/
theorem parameters_round_trip_counterexample :
    ¬ (parametersFromObject
        (((transformDashboardContentOptions
            (("parameters",
              .array ([({ Name := "State", Values := ["CT"] } : Parameter),
                       ({ Name := "State", Values := ["NY"] } : Parameter)].map Parameter.toJS))
             :: [])).2.parameters).getD [])
      = [({ Name := "State", Values := ["CT"] } : Parameter),
         ({ Name := "State", Values := ["NY"] } : Parameter)]) := by
  decide

/-! ## Missing response payloads (C3) -/

/-- C3: when the channel's response, or its message payload, is absent,
the collection-returning facade operations resolve to the empty list and
getSelectedSheetId resolves to the empty string; being total functions of
the response, none of them can throw. -/
theorem missing_payload_defaults
    (rp : Option (ResponseMessage (List Parameter)))
    (rs : Option (ResponseMessage (List Sheet)))
    (rva : Option (ResponseMessage (List VisualAction)))
    (rv : Option (ResponseMessage (List Visual)))
    (rid : Option (ResponseMessage String))
    (sheetId visualId : String)
    (hp : rp = none ∨ rp = some ⟨none⟩)
    (hs : rs = none ∨ rs = some ⟨none⟩)
    (hva : rva = none ∨ rva = some ⟨none⟩)
    (hv : rv = none ∨ rv = some ⟨none⟩)
    (hid : rid = none ∨ rid = some ⟨none⟩) :
    (getParameters rp).2 = []
  ∧ (getSheets rs).2 = []
  ∧ (getVisualActions sheetId visualId rva).2 = []
  ∧ (getSheetVisuals sheetId rv).2 = []
  ∧ (getSelectedSheetId rid).2 = "" := by
  refine ⟨?_, ?_, ?_, ?_, ?_⟩
  · obtain rfl | rfl := hp <;> rfl
  · obtain rfl | rfl := hs <;> rfl
  · obtain rfl | rfl := hva <;> rfl
  · obtain rfl | rfl := hv <;> rfl
  · obtain rfl | rfl := hid <;> rfl

theorem missing_payload_defaults_witness :
    (getParameters none).2 = []
  ∧ (getSheets (some ⟨none⟩)).2 = []
  ∧ (getVisualActions "sheet1" "visual1" none).2 = []
  ∧ (getSheetVisuals "sheet1" (some ⟨none⟩)).2 = []
  ∧ (getSelectedSheetId none).2 = "" :=
  missing_payload_defaults none (some ⟨none⟩) none (some ⟨none⟩) none
    "sheet1" "visual1" (Or.inl rfl) (Or.inr rfl) (Or.inl rfl) (Or.inr rfl) (Or.inl rfl)

/-! ## SIZE_CHANGED interception (C4) -/

/-- C4: on an inbound SIZE_CHANGED message with
`resizeHeightOnSizeChangedEvent` enabled, the interception hook sets the
frame element's height attribute to the payload's height value suffixed
with "px"; when the option is false or absent, or the event is not
SIZE_CHANGED, the hook leaves the metadata (and so the frame element)
untouched. -/
theorem size_changed_resize (fo : FrameOptions) (ev : EmbeddingEvent)
    (f : FrameElement) (h : String) (md : Option ExperienceFrameMetadata) :
    (ev.eventName = "SIZE_CHANGED" → fo.resizeHeightOnSizeChangedEvent = some true →
        ev.message.getProp "height" = .str h →
        interceptMessage fo ev (some { frame := some f })
          = some { frame := some (f.setAttribute "height" (h ++ "px")) })
  ∧ ((ev.eventName ≠ "SIZE_CHANGED" ∨ fo.resizeHeightOnSizeChangedEvent ≠ some true) →
        interceptMessage fo ev md = md) := by
  constructor
  · intro h1 h2 h3
    unfold interceptMessage
    rw [if_pos (by simp [h1, h2])]
    rw [h3]
    rfl
  · intro h1
    unfold interceptMessage
    rcases h1 with h1 | h1
    · rw [if_neg (by simp [h1])]
    · have hb : fo.resizeHeightOnSizeChangedEvent.getD false = false := by
        rcases hfo : fo.resizeHeightOnSizeChangedEvent with _ | b
        · rfl
        · cases b
          · rfl
          · exact absurd hfo h1
      rw [if_neg (by simp [hb])]

theorem size_changed_resize_witness :
    interceptMessage { url := "https://u", resizeHeightOnSizeChangedEvent := some true }
        { eventName := "SIZE_CHANGED", message := .obj [("height", .str "500")] }
        (some { frame := some { attributes := [] } })
      = some { frame := some { attributes := [("height", "500px")] } }
  ∧ interceptMessage { url := "https://u" }
        { eventName := "SIZE_CHANGED", message := .obj [("height", .str "500")] }
        (some { frame := some { attributes := [] } })
      = some { frame := some { attributes := [] } } :=
  ⟨(size_changed_resize { url := "https://u", resizeHeightOnSizeChangedEvent := some true }
      { eventName := "SIZE_CHANGED", message := .obj [("height", .str "500")] }
      { attributes := [] } "500"
      (some { frame := some { attributes := [] } })).1 rfl rfl rfl,
   (size_changed_resize { url := "https://u" }
      { eventName := "SIZE_CHANGED", message := .obj [("height", .str "500")] }
      { attributes := [] } "500"
      (some { frame := some { attributes := [] } })).2 (Or.inr (by simp))⟩

end QuickSightEmbedding
